import Mathlib

/-!
Shallow embedding of the Smart Money Concepts calculator
(`src/backend/smc_calculator.py`, class `SMCCalculator`) and proofs about it.

Conventions of the embedding:
* Python floats are modelled as rationals (`ℚ`); all price/volume arithmetic
  in the source is plain arithmetic and comparisons, which `ℚ` models exactly.
* `round(x, 2)` is modelled by `round2` (round half to even at two decimals,
  Python's rounding mode on exact values).
* `int(x)` is modelled by `qtrunc` (truncation toward zero).
* A pandas dataframe row is a `Candle`; the dataframe is a `List Candle` in
  time order.  Numpy array indexing `xs[i]` becomes `getD i 0`; all indices
  used by the source are in range.
* Python dicts returned by the detectors become structures.  The `date`
  string of an order block / gap is derived from the row index, so the
  structures store the row index (`obIdx` / `idx`) instead.
* Python's stable `list.sort(key=...)` is modelled by a stable insertion
  sort `insSort` parameterised by the strict "key is smaller" comparison.
-/

set_option maxRecDepth 1000000

/-- Floor of a rational as an integer (`Int.fdiv` is floor division). -/
def qfloor (q : ℚ) : ℤ := Int.fdiv q.num (q.den : ℤ)

/-- Round a rational to the nearest integer, ties to even (Python `round`). -/
def roundHalfEven (q : ℚ) : ℤ :=
  let f := qfloor q
  let r := q - (f : ℚ)
  if r < 1/2 then f
  else if 1/2 < r then f + 1
  else if f % 2 = 0 then f else f + 1

/-- Python `round(x, 2)` on exact values. -/
def round2 (q : ℚ) : ℚ := (roundHalfEven (q * 100) : ℚ) / 100

/-- Python `int(x)`: truncation toward zero. -/
def qtrunc (q : ℚ) : ℤ := q.num / (q.den : ℤ)

/-- `np.mean` of a list of rationals (callers guarantee nonemptiness). -/
def meanQ (l : List ℚ) : ℚ := l.sum / (l.length : ℚ)

/-- Python `xs[-n:]`: the last `n` elements. -/
def takeLast (n : ℕ) (l : List α) : List α := l.drop (l.length - n)

/-- `max` of a nonempty list of rationals (Python built-in `max`). -/
def qmax : List ℚ → ℚ
  | [] => 0
  | x :: xs => xs.foldl max x

/-- `min` of a nonempty list of rationals (Python built-in `min`). -/
def qmin : List ℚ → ℚ
  | [] => 0
  | x :: xs => xs.foldl min x

/-- Insert `x` into `l`, keeping every element strictly smaller than `x`
(per `lt`) in front of it.  Used by `insSort`. -/
def insertOrd (lt : α → α → Bool) (x : α) : List α → List α
  | [] => [x]
  | y :: ys => if lt y x then y :: insertOrd lt x ys else x :: y :: ys

/-- Stable ascending sort: the model of Python's stable `list.sort`.
`lt a b` must mean "the key of `a` is strictly smaller than the key of `b`";
elements with equal keys keep their original relative order. -/
def insSort (lt : α → α → Bool) : List α → List α
  | [] => []
  | x :: xs => insertOrd lt x (insSort lt xs)

/-- Model of Python's `for j in range(start, stop, -1): ...` candidate scan:
visit `start, start-1, ...` while the index stays strictly above `stop`,
returning the first index satisfying `p`. -/
def scanDown (p : ℕ → Bool) (stop : ℕ) (start : ℕ) : Option ℕ :=
  if h : stop < start then
    if p start then some start else scanDown p stop (start - 1)
  else none
termination_by start
decreasing_by omega

/-- One OHLCV row of the dataframe. -/
structure Candle where
  Open : ℚ
  High : ℚ
  Low : ℚ
  Close : ℚ
  Volume : ℚ
deriving DecidableEq, Repr

/-- The zero candle, used as out-of-range default (never hit by the source's
index ranges). -/
def zeroCandle : Candle := ⟨0, 0, 0, 0, 0⟩

def openAt (df : List Candle) (i : ℕ) : ℚ := (df.getD i zeroCandle).Open
def highAt (df : List Candle) (i : ℕ) : ℚ := (df.getD i zeroCandle).High
def lowAt (df : List Candle) (i : ℕ) : ℚ := (df.getD i zeroCandle).Low
def closeAt (df : List Candle) (i : ℕ) : ℚ := (df.getD i zeroCandle).Close
def volumeAt (df : List Candle) (i : ℕ) : ℚ := (df.getD i zeroCandle).Volume

/-- `closes[-1]`, the current price. -/
def priceOf (df : List Candle) : ℚ := closeAt df (df.length - 1)

/-- A swing point dict `{'index': i, 'price': p, 'date': ...}`; the date is
determined by the index and is dropped. -/
structure Swing where
  index : ℕ
  price : ℚ
deriving DecidableEq, Repr

/-- `find_swing_points` (smc_calculator.py lines 189-219): fractal swing
detection.  For each `i` in `range(length, n - length)`, `i` is a swing
high iff `highs[i] == max(highs[i-length : i+length+1])`, and a swing low
iff `lows[i] == min(lows[i-length : i+length+1])`.  Returns
`(swing_highs, swing_lows)`. -/
def find_swing_points (df : List Candle) (length : ℕ) : List Swing × List Swing :=
  let n := df.length
  let idxs := List.range' length (n - 2 * length)
  (idxs.filterMap fun i =>
      if highAt df i = qmax ((List.range' (i - length) (2 * length + 1)).map (highAt df)) then
        some ⟨i, highAt df i⟩
      else none,
   idxs.filterMap fun i =>
      if lowAt df i = qmin ((List.range' (i - length) (2 * length + 1)).map (lowAt df)) then
        some ⟨i, lowAt df i⟩
      else none)

/-- Result dict of `detect_trend`.  The short-series early return only has
the keys `direction`, `strength`, `structure`; this is modelled by
`counts = none`.  The main path stores `(hh, hl, lh, ll)`. -/
structure TrendResult where
  direction : String
  strength : ℚ
  structLabel : String
  counts : Option (ℕ × ℕ × ℕ × ℕ)
deriving DecidableEq, Repr

/-- Count of adjacent pairs `(l[i-1], l[i])` satisfying `p`. -/
def countPairs (p : Swing → Swing → Prop) [DecidableRel p] (l : List Swing) : ℕ :=
  (l.zip l.tail).countP fun ab => decide (p ab.1 ab.2)

/-- `detect_trend` (smc_calculator.py lines 223-272): HH/HL/LH/LL counting
over the last four swing highs and lows. -/
def detect_trend (swing_highs swing_lows : List Swing) : TrendResult :=
  if swing_highs.length < 2 ∨ swing_lows.length < 2 then
    ⟨"neutral", 0, "undefined", none⟩
  else
    let recent_highs := takeLast 4 swing_highs
    let recent_lows := takeLast 4 swing_lows
    let hh_count := countPairs (fun a b => a.price < b.price) recent_highs
    let lh_count := countPairs (fun a b => b.price < a.price) recent_highs
    let hl_count := countPairs (fun a b => a.price < b.price) recent_lows
    let ll_count := countPairs (fun a b => b.price < a.price) recent_lows
    let bullish_score := hh_count + hl_count
    let bearish_score := lh_count + ll_count
    let direction :=
      if bearish_score + 1 < bullish_score then "bullish"
      else if bullish_score + 1 < bearish_score then "bearish"
      else "neutral"
    let structLabel :=
      if bearish_score + 1 < bullish_score then "HH-HL"
      else if bullish_score + 1 < bearish_score then "LH-LL"
      else "ranging"
    let strength : ℚ :=
      |(bullish_score : ℚ) - (bearish_score : ℚ)| / ((max (bullish_score + bearish_score) 1 : ℕ) : ℚ)
    ⟨direction, round2 strength, structLabel, some (hh_count, hl_count, lh_count, ll_count)⟩

/-- `_calc_ema` (lines 908-919): EMA seeded with the first price, recursive
update `ema = (price - ema) * k + ema`, `k = 2/(period+1)`; short series
fall back to the plain mean. -/
def calc_ema (prices : List ℚ) (period : ℕ) : ℚ :=
  if prices.length < period then meanQ prices
  else
    let multiplier : ℚ := 2 / ((period : ℚ) + 1)
    (prices.drop 1).foldl (fun ema price => (price - ema) * multiplier + ema) (prices.headD 0)

/-- `np.diff(prices)`. -/
def diffs (prices : List ℚ) : List ℚ := (prices.zip (prices.drop 1)).map fun ab => ab.2 - ab.1

/-- The average gain in `_calc_rsi`: mean of the last `period` positive deltas. -/
def rsiAvgGain (prices : List ℚ) (period : ℕ) : ℚ :=
  meanQ (takeLast period ((diffs prices).map fun d => if 0 < d then d else 0))

/-- The average loss in `_calc_rsi`: mean of the last `period` negated negative deltas. -/
def rsiAvgLoss (prices : List ℚ) (period : ℕ) : ℚ :=
  meanQ (takeLast period ((diffs prices).map fun d => if d < 0 then -d else 0))

/-- `_calc_rsi` (lines 1015-1031): simple (non-Wilder) RSI with fallbacks
50 (short series) and 100 (zero average loss). -/
def calc_rsi (prices : List ℚ) (period : ℕ) : ℚ :=
  if prices.length < period + 1 then 50
  else if rsiAvgLoss prices period = 0 then 100
  else
    let rs := rsiAvgGain prices period / rsiAvgLoss prices period
    100 - 100 / (1 + rs)

/-- `_calc_atr` (lines 1033-1047): mean of the last `period` true ranges. -/
def calc_atr (df : List Candle) (period : ℕ) : ℚ :=
  if df.length < period + 1 then 0
  else
    let tr_list := (List.range' 1 (df.length - 1)).map fun i =>
      max (highAt df i - lowAt df i)
        (max |highAt df i - closeAt df (i - 1)| |lowAt df i - closeAt df (i - 1)|)
    meanQ (takeLast period tr_list)

/-- The 20-period average volume of `calc_indicators` (line 868) and
`find_order_blocks` (line 315): `np.mean(volumes[-20:])` when at least 20
rows exist, else the mean of all volumes. -/
def avgVolume (df : List Candle) : ℚ :=
  let volumes := df.map Candle.Volume
  if 20 ≤ volumes.length then meanQ (takeLast 20 volumes) else meanQ volumes

/-- The volume ratio of `calc_indicators` (lines 869-870):
current volume over the 20-period average, with fallback 1.0 when the
average is not positive. -/
def calcVolRatio (df : List Candle) : ℚ :=
  let vol_avg := avgVolume df
  let vol_current := volumeAt df (df.length - 1)
  if 0 < vol_avg then vol_current / vol_avg else 1

/-- The per-candle volume ratio of `find_order_blocks` (lines 344-345 and
410-411): the candidate candle's volume over the 20-period average, with
fallback 1.0 when the average is not positive. -/
def obVolRatio (df : List Candle) (j : ℕ) : ℚ :=
  if 0 < avgVolume df then volumeAt df j / avgVolume df else 1

/-- Top of the candle body at `j`: `max(opens[j], closes[j])`. -/
def bodyHigh (df : List Candle) (j : ℕ) : ℚ := max (openAt df j) (closeAt df j)

/-- Bottom of the candle body at `j`: `min(opens[j], closes[j])`. -/
def bodyLow (df : List Candle) (j : ℕ) : ℚ := min (openAt df j) (closeAt df j)

/-- `body_size` of the candidate candle (lines 331, 397). -/
def bodySize (df : List Candle) (j : ℕ) : ℚ := |closeAt df j - openAt df j|

/-- `wick_size` of the candidate candle (lines 332, 398). -/
def wickSize (df : List Candle) (j : ℕ) : ℚ :=
  (highAt df j - bodyHigh df j) + (bodyLow df j - lowAt df j)

/-- A bearish-OB candidate (lines 325 and 333-334): a bullish candle
(`closes[j] > opens[j]`) that survives the high-volatility filter
(`wick_size <= body_size * 2`; candles with larger wicks are skipped with
`continue`). -/
def obCandPredBear (df : List Candle) (j : ℕ) : Bool :=
  decide (openAt df j < closeAt df j) && decide (wickSize df j ≤ bodySize df j * 2)

/-- A bullish-OB candidate (lines 391 and 399-400): a bearish candle that
survives the high-volatility filter. -/
def obCandPredBull (df : List Candle) (j : ℕ) : Bool :=
  decide (closeAt df j < openAt df j) && decide (wickSize df j ≤ bodySize df j * 2)

/-- The backward scan `for j in range(idx - 1, max(0, idx - 10), -1)` of
`find_order_blocks` (line 324), looking for the nearest bearish-OB
candidate.  The scan visits `idx-1` down to `max(0, idx-10) + 1`
(the Python stop bound is exclusive). -/
def obScanBear (df : List Candle) (idx : ℕ) : Option ℕ :=
  scanDown (obCandPredBear df) (max 0 (idx - 10)) (idx - 1)

/-- The backward scan of line 390, looking for the nearest bullish-OB
candidate. -/
def obScanBull (df : List Candle) (idx : ℕ) : Option ℕ :=
  scanDown (obCandPredBull df) (max 0 (idx - 10)) (idx - 1)

/-- Mitigation check for a bearish order block (line 337): some strictly
later close strictly above the body top. -/
def mitigatedBear (df : List Candle) (j : ℕ) : Bool :=
  (List.range' (j + 1) (df.length - (j + 1))).any fun k => decide (bodyHigh df j < closeAt df k)

/-- Mitigation check for a bullish order block (line 403): some strictly
later close strictly below the body bottom. -/
def mitigatedBull (df : List Candle) (j : ℕ) : Bool :=
  (List.range' (j + 1) (df.length - (j + 1))).any fun k => decide (closeAt df k < bodyLow df j)

/-- `_calc_ob_strength` (lines 554-572): label from the percentage move
between the OB candle's close and the swing candle's close. -/
def calc_ob_strength (df : List Candle) (ob_idx swing_idx : ℕ) (ob_type : String) : String :=
  let move : ℚ :=
    if ob_type = "bullish" then
      (closeAt df swing_idx - closeAt df ob_idx) / closeAt df ob_idx * 100
    else
      (closeAt df ob_idx - closeAt df swing_idx) / closeAt df ob_idx * 100
  if 5 < move then "strong" else if 2 < move then "moderate" else "weak"

/-- `_calc_ob_quality` (lines 462-497): 0-100 quality score.  (The
`ob_type` parameter is unused by the source body and kept for fidelity.) -/
def calc_ob_quality (_ob_type : String) (vol_ratio : ℚ) (trend_aligned : Bool)
    (strength : String) : ℕ :=
  let volScore : ℕ :=
    if 2 < vol_ratio then 40
    else if 3/2 < vol_ratio then 30
    else if 6/5 < vol_ratio then 20
    else if 4/5 < vol_ratio then 10
    else 0
  let trendScore : ℕ := if trend_aligned then 30 else 10
  let strengthScore : ℕ :=
    if strength = "strong" then 30 else if strength = "moderate" then 20 else 10
  volScore + trendScore + strengthScore

/-- An order block dict.  `obIdx` is the index `j` of the zone candle
(standing in for the `date` field); `rank` and `in_zone` are only set by
the final pass of `find_order_blocks` (0 / `false` before). -/
structure OB where
  type : String
  signal : String
  high : ℚ
  low : ℚ
  mid : ℚ
  distance : ℚ
  distance_pct : ℚ
  strength : String
  obIdx : ℕ
  mitigated : Bool
  volValue : ℤ
  volRatio : ℚ
  volConfirmed : Bool
  volSignal : String
  trend_aligned : Bool
  quality_score : ℕ
  rank : ℕ
  in_zone : Bool
deriving DecidableEq, Repr

/-- `price > ema50 and ema20 > ema50` (line 311). -/
def emaBullish (df : List Candle) : Bool :=
  let closes := df.map Candle.Close
  decide (calc_ema closes 50 < priceOf df) && decide (calc_ema closes 50 < calc_ema closes 20)

/-- `price < ema50 and ema20 < ema50` (line 312). -/
def emaBearish (df : List Candle) : Bool :=
  let closes := df.map Candle.Close
  decide (priceOf df < calc_ema closes 50) && decide (calc_ema closes 20 < calc_ema closes 50)

/-- `'STRONG' if vol_ratio > 2.0 else 'MODERATE' if vol_ratio > 1.2 else 'WEAK'`. -/
def volSignalOf (vol_ratio : ℚ) : String :=
  if 2 < vol_ratio then "STRONG" else if 6/5 < vol_ratio then "MODERATE" else "WEAK"

/-- Build the order-block dict appended at lines 359-380 / 425-446, shared
between the bearish and bullish branches (whose bodies are identical up to
type/signal/mitigation direction). -/
def mkOB (df : List Candle) (tp sig : String) (trend_aligned : Bool)
    (j swing_idx : ℕ) : OB :=
  let price := priceOf df
  let ob_high := bodyHigh df j
  let ob_low := bodyLow df j
  let mid := (ob_high + ob_low) / 2
  let distance := |price - mid|
  let vol_ratio := obVolRatio df j
  let strength := calc_ob_strength df j swing_idx tp
  { type := tp
    signal := sig
    high := round2 ob_high
    low := round2 ob_low
    mid := round2 mid
    distance := round2 distance
    distance_pct := round2 (distance / price * 100)
    strength := strength
    obIdx := j
    mitigated := false
    volValue := qtrunc (volumeAt df j)
    volRatio := round2 vol_ratio
    volConfirmed := decide (6/5 < vol_ratio)
    volSignal := volSignalOf vol_ratio
    trend_aligned := trend_aligned
    quality_score := calc_ob_quality tp vol_ratio trend_aligned strength
    rank := 0
    in_zone := false }

/-- The bearish-OB loop body of `find_order_blocks` (lines 318-381) for one
swing high: skip swing points with `idx <= 5` or `idx >= len - 1`, scan
backward for the nearest surviving bullish candle, and keep the block only
if unmitigated.  (The bearish branch appends at most one block per swing
because the scan `break`s after the first surviving candidate.) -/
def mkBearishOB (df : List Candle) (use_ema_filter : Bool) (sh : Swing) : Option OB :=
  if sh.index ≤ 5 ∨ df.length - 1 ≤ sh.index then none
  else
    match obScanBear df sh.index with
    | none => none
    | some j =>
      if mitigatedBear df j then none
      else some (mkOB df "bearish" "SELL" (emaBearish df || !use_ema_filter) j sh.index)

/-- The bullish-OB loop body of `find_order_blocks` (lines 384-447) for one
swing low. -/
def mkBullishOB (df : List Candle) (use_ema_filter : Bool) (sl : Swing) : Option OB :=
  if sl.index ≤ 5 ∨ df.length - 1 ≤ sl.index then none
  else
    match obScanBull df sl.index with
    | none => none
    | some j =>
      if mitigatedBull df j then none
      else some (mkOB df "bullish" "BUY" (emaBullish df || !use_ema_filter) j sl.index)

/-- The raw `obs` list of `find_order_blocks` before sorting/filtering:
the bearish loop over the swing highs followed by the bullish loop over
the swing lows. -/
def obCandidates (df : List Candle) (swing_highs swing_lows : List Swing)
    (use_ema_filter : Bool) : List OB :=
  swing_highs.filterMap (mkBearishOB df use_ema_filter)
    ++ swing_lows.filterMap (mkBullishOB df use_ema_filter)

/-- The overlap test of `_filter_overlapping_obs` (lines 529-530): zones
intersect, or midpoints within `threshold_pct` of price. -/
def obOverlap (price threshold_pct : ℚ) (ob1 ob2 : OB) : Bool :=
  (decide (ob1.low ≤ ob2.high) && decide (ob2.low ≤ ob1.high))
    || decide (|ob1.mid - ob2.mid| / price * 100 < threshold_pct)

/-- `strength_order = {'strong': 0, 'moderate': 1, 'weak': 2}` with
`.get(x, 2)` fallback. -/
def strengthOrder (s : String) : ℕ :=
  if s = "strong" then 0 else if s = "moderate" then 1 else 2

/-- `min(overlapping, key=lambda x: (strength_order..., x['distance']))`:
Python's `min` keeps the first element among key-ties. -/
def bestOB (g0 : OB) (gs : List OB) : OB :=
  gs.foldl
    (fun b o =>
      if strengthOrder o.strength < strengthOrder b.strength
          ∨ (strengthOrder o.strength = strengthOrder b.strength ∧ o.distance < b.distance)
      then o else b)
    g0

/-- The grouping loop of `filter_by_type` (lines 515-542): take the first
unused block, absorb every later unused block overlapping it, keep the
best of the group, and continue with the rest. -/
def filterGroups (price threshold_pct : ℚ) : List OB → List OB
  | [] => []
  | ob1 :: rest =>
    let overlapping := rest.filter (obOverlap price threshold_pct ob1)
    let remaining := rest.filter fun o => !obOverlap price threshold_pct ob1 o
    bestOB ob1 overlapping :: filterGroups price threshold_pct remaining
termination_by l => l.length
decreasing_by
  have := List.length_filter_le (fun o => !obOverlap price threshold_pct ob1 o) rest
  simp only [List.length_cons]
  omega

/-- `filter_by_type` (lines 511-542). -/
def filterByType (price threshold_pct : ℚ) (obs_list : List OB) : List OB :=
  if obs_list.length ≤ 1 then obs_list else filterGroups price threshold_pct obs_list

/-- Strict "smaller distance" comparison for the final sort of
`_filter_overlapping_obs` and for the FVG sort. -/
def ltDistOB (a b : OB) : Bool := decide (a.distance < b.distance)

/-- `_filter_overlapping_obs` (lines 499-552). -/
def filter_overlapping_obs (obs : List OB) (price : ℚ) (threshold_pct : ℚ) : List OB :=
  if obs.length ≤ 1 then obs
  else
    let bullish_obs := obs.filter fun ob => decide (ob.type = "bullish")
    let bearish_obs := obs.filter fun ob => decide (ob.type = "bearish")
    let filtered_bullish := filterByType price threshold_pct bullish_obs
    let filtered_bearish := filterByType price threshold_pct bearish_obs
    insSort ltDistOB (filtered_bullish ++ filtered_bearish)

/-- Strict comparison for `obs.sort(key=lambda x: (-x['quality_score'], x['distance']))`. -/
def ltQualityDist (a b : OB) : Bool :=
  decide (b.quality_score < a.quality_score)
    || (decide (a.quality_score = b.quality_score) && decide (a.distance < b.distance))

/-- The final pass of `find_order_blocks` (lines 455-458): attach 1-based
rank and the `in_zone` flag. -/
def markRank (price : ℚ) (i : ℕ) (ob : OB) : OB :=
  { ob with rank := i + 1, in_zone := decide (ob.low ≤ price ∧ price ≤ ob.high) }

/-- `find_order_blocks` (smc_calculator.py lines 277-460).  The
`use_volume_filter` parameter is unused by the source body and kept for
fidelity; the source also computes an ATR and an EMA-200 that no later
line of the function reads (they are omitted here). -/
def find_order_blocks (df : List Candle) (swing_highs swing_lows : List Swing)
    (max_blocks : ℕ) (_use_volume_filter use_ema_filter : Bool) : List OB :=
  if df.length < 20 then []
  else
    let price := priceOf df
    let obs := obCandidates df swing_highs swing_lows use_ema_filter
    let sorted := insSort ltQualityDist obs
    let filtered_obs := filter_overlapping_obs sorted price 3
    (((List.range filtered_obs.length).zip filtered_obs).map fun p =>
        markRank price p.1 p.2).take max_blocks

/-- A fair value gap dict.  `idx` is the index `i` of the third candle of
the triple (standing in for the `date` field). -/
structure FVG where
  type : String
  signal : String
  high : ℚ
  low : ℚ
  mid : ℚ
  gap_pct : ℚ
  distance : ℚ
  distance_pct : ℚ
  idx : ℕ
  filled : Bool
deriving DecidableEq, Repr

/-- The bullish gap size percentage at triple `(i-2, i-1, i)` (line 597). -/
def gapPctBull (df : List Candle) (i : ℕ) : ℚ :=
  (lowAt df i - highAt df (i - 2)) / highAt df (i - 2) * 100

/-- The bearish gap size percentage at triple `(i-2, i-1, i)` (line 622). -/
def gapPctBear (df : List Candle) (i : ℕ) : ℚ :=
  (lowAt df (i - 2) - highAt df i) / lowAt df (i - 2) * 100

/-- Fill check for a bullish gap (line 603): some strictly later candle's
low at or below the gap bottom `highs[i-2]`. -/
def filledBull (df : List Candle) (i : ℕ) : Bool :=
  (List.range' (i + 1) (df.length - (i + 1))).any fun j => decide (lowAt df j ≤ highAt df (i - 2))

/-- Fill check for a bearish gap (line 628): some strictly later candle's
high at or above the gap top `lows[i-2]`. -/
def filledBear (df : List Candle) (i : ℕ) : Bool :=
  (List.range' (i + 1) (df.length - (i + 1))).any fun j => decide (lowAt df (i - 2) ≤ highAt df j)

/-- The bullish branch of the FVG loop (lines 594-617), producing at most
one gap for the triple ending at `i`. -/
def bullGapAt (df : List Candle) (min_gap_pct price : ℚ) (i : ℕ) : List FVG :=
  if highAt df (i - 2) < lowAt df i then
    if min_gap_pct ≤ gapPctBull df i then
      if filledBull df i then []
      else
        let mid := (lowAt df i + highAt df (i - 2)) / 2
        [{ type := "bullish"
           signal := "BUY"
           high := round2 (lowAt df i)
           low := round2 (highAt df (i - 2))
           mid := round2 mid
           gap_pct := round2 (gapPctBull df i)
           distance := round2 |price - mid|
           distance_pct := round2 (|price - mid| / price * 100)
           idx := i
           filled := false }]
    else []
  else []

/-- The bearish branch of the FVG loop (lines 619-642). -/
def bearGapAt (df : List Candle) (min_gap_pct price : ℚ) (i : ℕ) : List FVG :=
  if highAt df i < lowAt df (i - 2) then
    if min_gap_pct ≤ gapPctBear df i then
      if filledBear df i then []
      else
        let mid := (highAt df i + lowAt df (i - 2)) / 2
        [{ type := "bearish"
           signal := "SELL"
           high := round2 (lowAt df (i - 2))
           low := round2 (highAt df i)
           mid := round2 mid
           gap_pct := round2 (gapPctBear df i)
           distance := round2 |price - mid|
           distance_pct := round2 (|price - mid| / price * 100)
           idx := i
           filled := false }]
    else []
  else []

/-- The unsorted gap list accumulated by the loop `for i in range(2, len - 1)`
of `find_fair_value_gaps` (lines 593-642). -/
def fvgCandidates (df : List Candle) (min_gap_pct : ℚ) : List FVG :=
  (List.range' 2 (df.length - 3)).flatMap fun i =>
    bullGapAt df min_gap_pct (priceOf df) i ++ bearGapAt df min_gap_pct (priceOf df) i

/-- Strict "smaller distance" comparison for the FVG sort (line 645). -/
def ltDistFVG (a b : FVG) : Bool := decide (a.distance < b.distance)

/-- `find_fair_value_gaps` (smc_calculator.py lines 577-646): three-candle
gap scan, fill check, sort by distance, nearest 10. -/
def find_fair_value_gaps (df : List Candle) (min_gap_pct : ℚ) : List FVG :=
  if df.length < 10 then []
  else (insSort ltDistFVG (fvgCandidates df min_gap_pct)).take 10

/-- A BOS event dict of `detect_structure_breaks`.  The human-readable
`message` string is display-only formatting and dropped. -/
structure BOS where
  type : String
  level : ℚ
  broken_at : ℚ
  signal : String
deriving DecidableEq, Repr

/-- A CHoCH event dict (the `message` string is dropped). -/
structure CHoCH where
  type : String
  level : ℚ
  signal : String
deriving DecidableEq, Repr

/-- Result of `detect_structure_breaks`: the BOS list plus at most one CHoCH. -/
structure StructureBreaks where
  bos : List BOS
  choch : Option CHoCH
deriving DecidableEq, Repr

/-- `detect_structure_breaks` (smc_calculator.py lines 650-713).  BOS
events compare the last close to the most recent swing high/low; the CHoCH
variable is assigned by the bullish check and then possibly overwritten by
the bearish check, so the bearish branch has priority. -/
def detect_structure_breaks (df : List Candle) (swing_highs swing_lows : List Swing) :
    StructureBreaks :=
  if swing_highs.length < 2 ∨ swing_lows.length < 2 then ⟨[], none⟩
  else
    let price := priceOf df
    let recent_high := swing_highs.getLastD ⟨0, 0⟩
    let recent_low := swing_lows.getLastD ⟨0, 0⟩
    let prev_high := swing_highs.dropLast.getLastD ⟨0, 0⟩
    let prev_low := swing_lows.dropLast.getLastD ⟨0, 0⟩
    let bos_list :=
      (if recent_high.price < price then
        [({ type := "bullish", level := recent_high.price, broken_at := round2 price,
            signal := "BUY" } : BOS)]
      else [])
      ++
      (if price < recent_low.price then
        [({ type := "bearish", level := recent_low.price, broken_at := round2 price,
            signal := "SELL" } : BOS)]
      else [])
    let choch : Option CHoCH :=
      if prev_low.price < recent_low.price ∧ price < recent_low.price then
        some { type := "bearish", level := recent_low.price, signal := "SELL" }
      else if recent_high.price < prev_high.price ∧ recent_high.price < price then
        some { type := "bullish", level := recent_high.price, signal := "BUY" }
      else none
    ⟨bos_list, choch⟩

/-- The `ob` dict fields read by `calculate_trade_setup`. -/
structure TSInput where
  type : String
  high : ℚ
  low : ℚ
deriving DecidableEq, Repr

/-- Result dict of `calculate_trade_setup`. -/
structure TradeSetup where
  direction : String
  entry : ℚ
  stop_loss : ℚ
  take_profit_1 : ℚ
  take_profit_2 : ℚ
  take_profit_3 : ℚ
  risk : ℚ
  risk_pct : ℚ
  rr1 : ℚ
  rr2 : ℚ
  rr3 : ℚ
  recommended_rr : ℚ
  valid : Bool
deriving DecidableEq, Repr

/-- The shared tail of `calculate_trade_setup` (lines 1114-1138): RR
ratios, risk percentage, rounding, and the validity flag
`risk_pct <= 5.0` computed on the unrounded risk percentage. -/
def mkTradeSetup (dir : String) (entry stop_loss tp1 tp2 tp3 risk : ℚ) : TradeSetup :=
  let rr1 := if 0 < risk then |tp1 - entry| / risk else 0
  let rr2 := if 0 < risk then |tp2 - entry| / risk else 0
  let rr3 := if 0 < risk then |tp3 - entry| / risk else 0
  let risk_pct := |entry - stop_loss| / entry * 100
  { direction := dir
    entry := round2 entry
    stop_loss := round2 stop_loss
    take_profit_1 := round2 tp1
    take_profit_2 := round2 tp2
    take_profit_3 := round2 tp3
    risk := round2 risk
    risk_pct := round2 risk_pct
    rr1 := round2 rr1
    rr2 := round2 rr2
    rr3 := round2 rr3
    recommended_rr := round2 rr2
    valid := decide (risk_pct ≤ 5) }

/-- `calculate_trade_setup` (smc_calculator.py lines 1051-1138).
`zonesEq` models `zones.get('equilibrium')` (`none` when the zones dict is
absent or has no equilibrium; the Python truthiness test also rejects an
equilibrium of 0).  `atrOpt` models `indicators.get('atr', {}).get('value',
price * 0.02)`. -/
def calculate_trade_setup (df : List Candle) (ob : TSInput) (zonesEq : Option ℚ)
    (atrOpt : Option ℚ) : TradeSetup :=
  let price := priceOf df
  let atr := match atrOpt with | some a => a | none => price * (2 / 100)
  let atr_buffer := atr * (1 / 2)
  if ob.type = "bullish" then
    let entry := ob.high
    let stop_loss := ob.low - atr_buffer
    let risk := entry - stop_loss
    let tp1 := entry + risk * 1
    let tp2 := entry + risk * 2
    let tp3 := entry + risk * 3
    let tp1 :=
      match zonesEq with
      | some eq => if eq ≠ 0 ∧ entry < eq then eq else tp1
      | none => tp1
    mkTradeSetup "LONG" entry stop_loss tp1 tp2 tp3 risk
  else
    let entry := ob.low
    let stop_loss := ob.high + atr_buffer
    let risk := stop_loss - entry
    let tp1 := entry - risk * 1
    let tp2 := entry - risk * 2
    let tp3 := entry - risk * 3
    let tp1 :=
      match zonesEq with
      | some eq => if eq ≠ 0 ∧ eq < entry then eq else tp1
      | none => tp1
    mkTradeSetup "SHORT" entry stop_loss tp1 tp2 tp3 risk

/-- The risk percentage `abs(entry - stop_loss) / entry * 100` of the claim,
expressed directly on the inputs of `calculate_trade_setup` (entry and
stop per branch, lines 1076-1099 and 1119-1120). -/
def riskPctOf (ob : TSInput) (atrOpt : Option ℚ) (price : ℚ) : ℚ :=
  let atr := match atrOpt with | some a => a | none => price * (2 / 100)
  let atr_buffer := atr * (1 / 2)
  if ob.type = "bullish" then |ob.high - (ob.low - atr_buffer)| / ob.high * 100
  else |ob.low - (ob.high + atr_buffer)| / ob.low * 100

/-- Fixture: 20 degenerate candles with all prices `100 + i`; closes (and
lows) strictly increasing. -/
def dfTrend : List Candle :=
  (List.range 20).map fun i => ⟨100 + i, 100 + i, 100 + i, 100 + i, 1⟩

/-- Fixture: 10 candles with one bullish fair value gap at the triple
(0, 1, 2) (gap interval [1000, 1050], 5%), and a later candle (index 5)
whose close 1035 lies inside the gap interval while its low 1030 stays
above the gap bottom. -/
def dfGap : List Candle :=
  [⟨950, 1000, 900, 980, 1⟩,
   ⟨1000, 1060, 990, 1050, 1⟩,
   ⟨1055, 1070, 1050, 1060, 1⟩,
   ⟨1040, 1060, 1030, 1040, 1⟩,
   ⟨1040, 1060, 1030, 1040, 1⟩,
   ⟨1035, 1060, 1030, 1035, 1⟩,
   ⟨1040, 1060, 1030, 1040, 1⟩,
   ⟨1040, 1060, 1030, 1040, 1⟩,
   ⟨1040, 1060, 1030, 1040, 1⟩,
   ⟨1040, 1060, 1030, 1040, 1⟩]

/-- Fixture for the structure-break claim: 27 candles whose swing lows are
100 at index 10 and 105 at index 20, with the final close 99 below both. -/
def dfBreak : List Candle :=
  [⟨112, 120, 110, 112, 1⟩, ⟨112, 120, 110, 112, 1⟩, ⟨112, 120, 110, 112, 1⟩,
   ⟨112, 120, 110, 112, 1⟩, ⟨112, 120, 110, 112, 1⟩, ⟨112, 120, 110, 112, 1⟩,
   ⟨112, 120, 110, 112, 1⟩, ⟨112, 130, 110, 112, 1⟩, ⟨112, 120, 110, 112, 1⟩,
   ⟨112, 120, 110, 112, 1⟩, ⟨112, 120, 100, 112, 1⟩, ⟨112, 120, 110, 112, 1⟩,
   ⟨112, 120, 110, 112, 1⟩, ⟨112, 120, 110, 112, 1⟩, ⟨112, 135, 110, 112, 1⟩,
   ⟨112, 120, 110, 112, 1⟩, ⟨112, 120, 110, 112, 1⟩, ⟨112, 120, 110, 112, 1⟩,
   ⟨112, 120, 110, 112, 1⟩, ⟨112, 120, 110, 112, 1⟩, ⟨112, 120, 105, 112, 1⟩,
   ⟨112, 120, 110, 112, 1⟩, ⟨112, 120, 110, 112, 1⟩, ⟨112, 120, 110, 112, 1⟩,
   ⟨112, 120, 110, 112, 1⟩, ⟨112, 120, 110, 112, 1⟩, ⟨99, 120, 98, 99, 1⟩]

/-- Fixture for the backward-scan range: 21 candles with a unique swing
high at index 15; every candle in the scanned range 6..14 is bearish, and
the only bullish candle before the swing, index 5 = 15 - 10, is just
outside the scanned range. -/
def dfScan : List Candle :=
  [⟨150, 200, 100, 140, 100⟩, ⟨150, 201, 99, 140, 100⟩, ⟨150, 202, 98, 140, 100⟩,
   ⟨150, 203, 97, 140, 100⟩, ⟨150, 204, 96, 140, 100⟩, ⟨140, 150, 140, 150, 100⟩,
   ⟨150, 206, 94, 140, 100⟩, ⟨150, 207, 93, 140, 100⟩, ⟨150, 208, 92, 140, 100⟩,
   ⟨150, 209, 91, 140, 100⟩, ⟨150, 210, 90, 140, 100⟩, ⟨150, 211, 89, 140, 100⟩,
   ⟨150, 212, 88, 140, 100⟩, ⟨150, 213, 87, 140, 100⟩, ⟨150, 214, 86, 140, 100⟩,
   ⟨150, 250, 85, 140, 100⟩, ⟨150, 240, 84, 140, 100⟩, ⟨150, 230, 83, 140, 100⟩,
   ⟨150, 220, 82, 140, 100⟩, ⟨150, 210, 81, 140, 100⟩, ⟨150, 205, 80, 140, 100⟩]

/-- Fixture for strict-boundary mitigation and the overlap filter: 27
candles producing two bullish order blocks, from the bearish candles at
index 11 (zone [101, 102], weak) and index 17 (zone [101, 104], strong).
Every close after index 11 is at least 101, with the very next close
exactly touching the zone bottom 101. -/
def dfTouch : List Candle :=
  [⟨101, 101, 101, 101, 100⟩, ⟨101, 101, 101, 101, 100⟩, ⟨101, 101, 101, 101, 100⟩,
   ⟨101, 101, 101, 101, 100⟩, ⟨101, 101, 101, 101, 100⟩, ⟨101, 101, 101, 101, 100⟩,
   ⟨101, 101, 101, 101, 100⟩, ⟨101, 101, 101, 101, 100⟩, ⟨101, 101, 101, 101, 100⟩,
   ⟨101, 101, 101, 101, 100⟩, ⟨101, 101, 101, 101, 100⟩, ⟨102, 102, 101, 101, 100⟩,
   ⟨101, 101, 40, 101, 100⟩, ⟨101, 101, 101, 101, 100⟩, ⟨101, 101, 101, 101, 100⟩,
   ⟨101, 101, 101, 101, 100⟩, ⟨101, 101, 101, 101, 100⟩, ⟨104, 104, 101, 101, 100⟩,
   ⟨107, 107, 41, 107, 100⟩, ⟨101, 101, 101, 101, 100⟩, ⟨101, 101, 101, 101, 100⟩,
   ⟨101, 101, 101, 101, 100⟩, ⟨101, 101, 101, 101, 100⟩, ⟨101, 101, 101, 101, 100⟩,
   ⟨101, 101, 101, 101, 100⟩, ⟨101, 101, 101, 101, 100⟩, ⟨101, 101, 101, 101, 100⟩]

def shTouch : List Swing := (find_swing_points dfTouch 5).1
def slTouch : List Swing := (find_swing_points dfTouch 5).2

/-- The single block that `find_order_blocks` returns on `dfTouch`
(the strong zone from candle 17). -/
def touchOutputBlock : OB :=
  { type := "bullish", signal := "BUY", high := 104, low := 101, mid := 205/2,
    distance := 3/2, distance_pct := 149/100, strength := "strong", obIdx := 17,
    mitigated := false, volValue := 100, volRatio := 1, volConfirmed := false,
    volSignal := "WEAK", trend_aligned := false, quality_score := 50, rank := 1,
    in_zone := true }

def shBreak : List Swing := (find_swing_points dfBreak 5).1
def slBreak : List Swing := (find_swing_points dfBreak 5).2

/-- Fixture with a single zero-volume candle: the 20-period average volume
is zero. -/
def dfZeroVol : List Candle := [⟨1, 1, 1, 1, 0⟩]

/-- A 15-price series with mixed gains and losses (both RSI averages are
nonzero). -/
def pricesMixed : List ℚ := [1, 3, 2, 4, 3, 5, 4, 6, 5, 7, 6, 8, 7, 9, 8]

/-- A 15-price strictly increasing series (zero average loss). -/
def pricesUp : List ℚ := [1, 2, 3, 4, 5, 6, 7, 8, 9, 10, 11, 12, 13, 14, 15]

theorem mem_insertOrd (lt : α → α → Bool) (x : α) (l : List α) (y : α) :
    y ∈ insertOrd lt x l ↔ y = x ∨ y ∈ l := by
  induction l with
  | nil => simp [insertOrd]
  | cons z zs ih =>
    simp only [insertOrd]
    split
    · simp only [List.mem_cons, ih]
      tauto
    · simp only [List.mem_cons]

theorem mem_insSort (lt : α → α → Bool) (l : List α) (y : α) :
    y ∈ insSort lt l ↔ y ∈ l := by
  induction l with
  | nil => simp [insSort]
  | cons x xs ih => simp [insSort, mem_insertOrd, ih]

/-- Characterisation of the downward scan: it returns `r` iff `r` is the
largest index in the half-open interval `(stop, start]` satisfying `p`. -/
theorem scanDown_eq_some (p : ℕ → Bool) (stop : ℕ) :
    ∀ start r, scanDown p stop start = some r ↔
      (stop < r ∧ r ≤ start ∧ p r = true ∧ ∀ k, r < k → k ≤ start → p k = false) := by
  intro start
  induction start using Nat.strong_induction_on with
  | _ start ih =>
    intro r
    rw [scanDown]
    by_cases h : stop < start
    · simp only [dif_pos h]
      by_cases hp : p start
      · simp only [if_pos hp]
        constructor
        · rintro ⟨rfl⟩
          exact ⟨h, le_refl _, hp, fun k hk1 hk2 => absurd (lt_of_lt_of_le hk1 hk2) (lt_irrefl _)⟩
        · rintro ⟨_, hr2, hpr, hmax⟩
          rcases eq_or_lt_of_le hr2 with rfl | hlt
          · rfl
          · exact absurd hp (by simp [hmax start hlt (le_refl _)])
      · simp only [if_neg hp]
        have hlt : start - 1 < start := by omega
        rw [ih (start - 1) hlt r]
        constructor
        · rintro ⟨h1, h2, h3, h4⟩
          refine ⟨h1, by omega, h3, fun k hk1 hk2 => ?_⟩
          rcases eq_or_lt_of_le hk2 with rfl | hk3
          · simpa using hp
          · exact h4 k hk1 (by omega)
        · rintro ⟨h1, h2, h3, h4⟩
          have hne : r ≠ start := by
            rintro rfl
            exact hp (by simp [h3])
          exact ⟨h1, by omega, h3, fun k hk1 hk2 => h4 k hk1 (by omega)⟩
    · simp only [dif_neg h]
      constructor
      · rintro ⟨⟩
      · rintro ⟨h1, h2, _, _⟩
        exact absurd (lt_of_lt_of_le h1 h2) h

theorem bestOB_mem (g0 : OB) (gs : List OB) : bestOB g0 gs ∈ g0 :: gs := by
  unfold bestOB
  induction gs generalizing g0 with
  | nil => simp
  | cons x xs ih =>
    simp only [List.foldl_cons]
    by_cases hc : strengthOrder x.strength < strengthOrder g0.strength
        ∨ (strengthOrder x.strength = strengthOrder g0.strength ∧ x.distance < g0.distance)
    · rw [if_pos hc]
      rcases List.mem_cons.1 (ih x) with h | h
      · rw [h]; simp
      · simp [List.mem_cons, h]
    · rw [if_neg hc]
      rcases List.mem_cons.1 (ih g0) with h | h
      · rw [h]; simp
      · simp [List.mem_cons, h]

theorem filterGroups_subset (price threshold_pct : ℚ) :
    ∀ (N : ℕ) (l : List OB), l.length ≤ N → ∀ x ∈ filterGroups price threshold_pct l, x ∈ l := by
  intro N
  induction N with
  | zero =>
    intro l hl x hx
    rw [List.length_eq_zero.1 (Nat.le_zero.1 hl)] at hx ⊢
    rw [filterGroups] at hx
    exact hx
  | succ N ih =>
    intro l hl x hx
    match l with
    | [] => rw [filterGroups] at hx; exact hx
    | ob1 :: rest =>
      rw [filterGroups] at hx
      rcases List.mem_cons.1 hx with h | h
      · subst h
        rcases List.mem_cons.1 (bestOB_mem ob1 (rest.filter (obOverlap price threshold_pct ob1))) with
          h | h
        · simp [h]
        · exact List.mem_cons_of_mem _ (List.mem_of_mem_filter h)
      · have hrem : (rest.filter fun o => !obOverlap price threshold_pct ob1 o).length ≤ N := by
          have := List.length_filter_le (fun o => !obOverlap price threshold_pct ob1 o) rest
          simp only [List.length_cons] at hl
          omega
        exact List.mem_cons_of_mem _ (List.mem_of_mem_filter (ih _ hrem x h))

theorem filterByType_subset (price threshold_pct : ℚ) (l : List OB) :
    ∀ x ∈ filterByType price threshold_pct l, x ∈ l := by
  intro x hx
  unfold filterByType at hx
  split at hx
  · exact hx
  · exact filterGroups_subset price threshold_pct l.length l (le_refl _) x hx

theorem filter_overlapping_subset (obs : List OB) (price threshold_pct : ℚ) :
    ∀ x ∈ filter_overlapping_obs obs price threshold_pct, x ∈ obs := by
  intro x hx
  unfold filter_overlapping_obs at hx
  split at hx
  · exact hx
  · rcases List.mem_append.1 ((mem_insSort _ _ x).1 hx) with h | h
    · exact List.mem_of_mem_filter (filterByType_subset _ _ _ x h)
    · exact List.mem_of_mem_filter (filterByType_subset _ _ _ x h)

/-- Every block in the output of `find_order_blocks` agrees on every field
except `rank` and `in_zone` with some raw candidate. -/
theorem find_order_blocks_mem_candidates (df : List Candle) (sh sl : List Swing)
    (mb : ℕ) (uvf uef : Bool) (ob : OB) (hmem : ob ∈ find_order_blocks df sh sl mb uvf uef) :
    ∃ ob' ∈ obCandidates df sh sl uef, ob.type = ob'.type ∧ ob.obIdx = ob'.obIdx := by
  unfold find_order_blocks at hmem
  split at hmem
  · simp at hmem
  · have h1 := List.mem_of_mem_take hmem
    rcases List.mem_map.1 h1 with ⟨p, hp, hmk⟩
    have hp2 : p.2 ∈ filter_overlapping_obs
        (insSort ltQualityDist (obCandidates df sh sl uef)) (priceOf df) 3 := by
      have := List.of_mem_zip (a := p.1) (b := p.2) (by simpa using hp)
      exact this.2
    have hp3 := filter_overlapping_subset _ _ _ _ hp2
    have hp4 := (mem_insSort _ _ _).1 hp3
    refine ⟨p.2, hp4, ?_, ?_⟩
    · rw [← hmk]; rfl
    · rw [← hmk]; rfl

/-- Every raw candidate is unmitigated: a bearish candidate has no later
close strictly above its body top, a bullish one none strictly below its
body bottom. -/
theorem obCandidates_unmitigated (df : List Candle) (sh sl : List Swing) (uef : Bool)
    (ob : OB) (hmem : ob ∈ obCandidates df sh sl uef) :
    (ob.type = "bearish" → ∀ k, k < df.length → ob.obIdx < k →
      closeAt df k ≤ bodyHigh df ob.obIdx) ∧
    (ob.type = "bullish" → ∀ k, k < df.length → ob.obIdx < k →
      bodyLow df ob.obIdx ≤ closeAt df k) := by
  unfold obCandidates at hmem
  have hceq : ∀ j, mitigatedBear df j = false →
      ∀ k, k < df.length → j < k → closeAt df k ≤ bodyHigh df j := by
    intro j hm k hk1 hk2
    have := List.any_eq_false.1 hm k
      (by rw [List.mem_range']; exact ⟨k - (j+1), by omega, by omega⟩)
    simpa using this
  have hceq' : ∀ j, mitigatedBull df j = false →
      ∀ k, k < df.length → j < k → bodyLow df j ≤ closeAt df k := by
    intro j hm k hk1 hk2
    have := List.any_eq_false.1 hm k
      (by rw [List.mem_range']; exact ⟨k - (j+1), by omega, by omega⟩)
    simpa using this
  rcases List.mem_append.1 hmem with h | h
  · rcases List.mem_filterMap.1 h with ⟨s, _, hs⟩
    unfold mkBearishOB at hs
    split at hs
    · exact absurd hs (by simp)
    · split at hs
      · exact absurd hs (by simp)
      · split at hs
        · exact absurd hs (by simp)
        · rename_i j heq hmit
          have hmf : mitigatedBear df j = false := by
            cases hmb : mitigatedBear df j
            · rfl
            · exact absurd hmb hmit
          rw [← Option.some_inj.1 hs]
          constructor
          · intro _ k hk1 hk2
            exact hceq j hmf k hk1 hk2
          · intro hty
            exact absurd hty (by simp [mkOB])
  · rcases List.mem_filterMap.1 h with ⟨s, _, hs⟩
    unfold mkBullishOB at hs
    split at hs
    · exact absurd hs (by simp)
    · split at hs
      · exact absurd hs (by simp)
      · split at hs
        · exact absurd hs (by simp)
        · rename_i j heq hmit
          have hmf : mitigatedBull df j = false := by
            cases hmb : mitigatedBull df j
            · rfl
            · exact absurd hmb hmit
          rw [← Option.some_inj.1 hs]
          constructor
          · intro hty
            exact absurd hty (by simp [mkOB])
          · intro _ k hk1 hk2
            exact hceq' j hmf k hk1 hk2

/-- C1: every block in the output of `find_order_blocks` has no later candle
whose close crosses the zone's far boundary (strictly above the body top for
a bearish block, strictly below the body bottom for a bullish block).
Contrapositively, any candidate found by the backward scan whose far
boundary is crossed by some later close is excluded from the returned
list: a bearish (resp. bullish) block of the output can only carry a
candle index `obIdx` at which the mitigation scan found no crossing
close. -/
theorem order_block_mitigation_exclusion :
    ∀ (df : List Candle) (sh sl : List Swing) (mb : ℕ) (uvf uef : Bool) (ob : OB),
      ob ∈ find_order_blocks df sh sl mb uvf uef →
      (ob.type = "bearish" → ∀ k, k < df.length → ob.obIdx < k →
        closeAt df k ≤ bodyHigh df ob.obIdx) ∧
      (ob.type = "bullish" → ∀ k, k < df.length → ob.obIdx < k →
        bodyLow df ob.obIdx ≤ closeAt df k) := by
  intro df sh sl mb uvf uef ob hmem
  obtain ⟨ob', hmem', hty, hidx⟩ := find_order_blocks_mem_candidates df sh sl mb uvf uef ob hmem
  rw [hty, hidx]
  exact obCandidates_unmitigated df sh sl uef ob' hmem'

/-- Witness for C1 at the concrete series `dfTouch`: the returned block has
body bottom 101 at candle 17, and the close of candle 20 indeed does not
lie below it. -/
theorem order_block_mitigation_exclusion_witness :
    bodyLow dfTouch (touchOutputBlock.obIdx) ≤ closeAt dfTouch 20 := by
  have h := order_block_mitigation_exclusion dfTouch shTouch slTouch 10 true true
    touchOutputBlock (by with_unfolding_all decide)
  exact h.2 (by with_unfolding_all decide) 20 (by with_unfolding_all decide)
    (by with_unfolding_all decide)

/-- C9 (amended): mitigation is strict at the boundary.  If the backward
scan selects candidate candle `j` for a swing point and no later close
strictly crosses the zone's far boundary (a close exactly equal to the
boundary is allowed), the block is not marked mitigated and is appended to
the raw candidate list `obCandidates` of `find_order_blocks`.  (It can
still be absent from the final output, e.g. when the overlap filter merges
it away — see the counterexample for the claim as stated.) -/
theorem strict_boundary_unmitigated_candidate :
    ∀ (df : List Candle) (sh sl : List Swing) (uef : Bool),
      (∀ s ∈ sh, ∀ j, 5 < s.index → s.index < df.length - 1 →
        obScanBear df s.index = some j →
        (∀ k, k < df.length → j < k → closeAt df k ≤ bodyHigh df j) →
        ∃ ob ∈ obCandidates df sh sl uef, ob.obIdx = j ∧ ob.type = "bearish") ∧
      (∀ s ∈ sl, ∀ j, 5 < s.index → s.index < df.length - 1 →
        obScanBull df s.index = some j →
        (∀ k, k < df.length → j < k → bodyLow df j ≤ closeAt df k) →
        ∃ ob ∈ obCandidates df sh sl uef, ob.obIdx = j ∧ ob.type = "bullish") := by
  intro df sh sl uef
  constructor
  · intro s hmem j h5 hn hscan hok
    have hmf : mitigatedBear df j = false := by
      apply List.any_eq_false.2
      intro k hk
      rcases List.mem_range'.1 hk with ⟨i, hi, rfl⟩
      simp only [decide_eq_true_eq]
      exact not_lt.2 (hok (j + 1 + 1 * i) (by omega) (by omega))
    refine ⟨mkOB df "bearish" "SELL" (emaBearish df || !uef) j s.index, ?_, rfl, rfl⟩
    apply List.mem_append.2
    left
    apply List.mem_filterMap.2
    refine ⟨s, hmem, ?_⟩
    unfold mkBearishOB
    rw [if_neg (by omega), hscan]
    show (if mitigatedBear df j = true then none
      else some (mkOB df "bearish" "SELL" (emaBearish df || !uef) j s.index)) = _
    rw [hmf]
    simp
  · intro s hmem j h5 hn hscan hok
    have hmf : mitigatedBull df j = false := by
      apply List.any_eq_false.2
      intro k hk
      rcases List.mem_range'.1 hk with ⟨i, hi, rfl⟩
      simp only [decide_eq_true_eq]
      exact not_lt.2 (hok (j + 1 + 1 * i) (by omega) (by omega))
    refine ⟨mkOB df "bullish" "BUY" (emaBullish df || !uef) j s.index, ?_, rfl, rfl⟩
    apply List.mem_append.2
    right
    apply List.mem_filterMap.2
    refine ⟨s, hmem, ?_⟩
    unfold mkBullishOB
    rw [if_neg (by omega), hscan]
    show (if mitigatedBull df j = true then none
      else some (mkOB df "bullish" "BUY" (emaBullish df || !uef) j s.index)) = _
    rw [hmf]
    simp

/-- Witness for the amended C9 at `dfTouch`: the exactly-touched zone from
candle 11 survives as a raw candidate. -/
theorem strict_boundary_unmitigated_candidate_witness :
    ∃ ob ∈ obCandidates dfTouch shTouch slTouch true, ob.obIdx = 11 ∧ ob.type = "bullish" := by
  apply (strict_boundary_unmitigated_candidate dfTouch shTouch slTouch true).2 ⟨12, 40⟩
    (by with_unfolding_all decide) 11 (by with_unfolding_all decide)
    (by with_unfolding_all decide) (by with_unfolding_all decide)
    (by with_unfolding_all decide)

/-- Counterexample to C9 as stated: on `dfTouch`, the bullish zone from
candle 11 has a later close exactly equal to its bottom boundary and no
later close strictly below it, yet no block with candle index 11 appears
in the output of `find_order_blocks` (the overlap filter merges the zone
into the stronger overlapping zone from candle 17). -/
theorem touched_block_dropped_from_output :
    (∃ ob ∈ obCandidates dfTouch shTouch slTouch true, ob.obIdx = 11 ∧ ob.type = "bullish") ∧
    closeAt dfTouch 12 = bodyLow dfTouch 11 ∧
    (∀ k, k < 27 → 11 < k → ¬(closeAt dfTouch k < bodyLow dfTouch 11)) ∧
    (∀ ob ∈ find_order_blocks dfTouch shTouch slTouch 10 true true, ob.obIdx ≠ 11) := by
  with_unfolding_all decide

theorem filterMap_eq_filterMap_filter (f : α → Option β) (p : α → Bool) :
    ∀ l : List α, (∀ a ∈ l, p a = false → f a = none) →
      l.filterMap f = (l.filter p).filterMap f := by
  intro l
  induction l with
  | nil => intro _; rfl
  | cons a l ih =>
    intro h
    have htail := ih fun b hb => h b (List.mem_cons_of_mem a hb)
    cases hp : p a
    · rw [List.filter_cons_of_neg (by simp [hp]), List.filterMap_cons,
        h a (List.mem_cons_self a l) hp, htail]
    · rw [List.filter_cons_of_pos hp, List.filterMap_cons, List.filterMap_cons, htail]

/-- C10: a swing point with index at most 5 or equal to the last index of
the series never produces an order block, in any call: its per-swing
contribution (the loop body `mkBearishOB` / `mkBullishOB` of
`find_order_blocks`) is `none`, and consequently the output of
`find_order_blocks` on arbitrary (mixed) swing lists is unchanged when
all such edge swing points are removed from both lists. -/
theorem edge_swing_points_skipped :
    ∀ (df : List Candle) (sh sl : List Swing) (mb : ℕ) (uvf uef : Bool) (s : Swing),
      ((s.index ≤ 5 ∨ s.index = df.length - 1) →
        mkBearishOB df uef s = none ∧ mkBullishOB df uef s = none) ∧
      find_order_blocks df sh sl mb uvf uef =
        find_order_blocks df
          (sh.filter fun t => decide (5 < t.index ∧ t.index ≠ df.length - 1))
          (sl.filter fun t => decide (5 < t.index ∧ t.index ≠ df.length - 1))
          mb uvf uef := by
  intro df sh sl mb uvf uef s
  have hnone : ∀ t : Swing, t.index ≤ 5 ∨ t.index = df.length - 1 →
      mkBearishOB df uef t = none ∧ mkBullishOB df uef t = none := by
    intro t ht
    have hcond : t.index ≤ 5 ∨ df.length - 1 ≤ t.index := by
      rcases ht with h | h
      · exact Or.inl h
      · exact Or.inr (le_of_eq h.symm)
    constructor
    · unfold mkBearishOB
      rw [if_pos hcond]
    · unfold mkBullishOB
      rw [if_pos hcond]
  refine ⟨hnone s, ?_⟩
  have hdrop : ∀ t : Swing,
      (decide (5 < t.index ∧ t.index ≠ df.length - 1)) = false →
      t.index ≤ 5 ∨ t.index = df.length - 1 := by
    intro t ht
    have : ¬(5 < t.index ∧ t.index ≠ df.length - 1) := by simpa using ht
    omega
  have hcand : obCandidates df sh sl uef =
      obCandidates df
        (sh.filter fun t => decide (5 < t.index ∧ t.index ≠ df.length - 1))
        (sl.filter fun t => decide (5 < t.index ∧ t.index ≠ df.length - 1)) uef := by
    unfold obCandidates
    rw [filterMap_eq_filterMap_filter (mkBearishOB df uef) _ sh
        (fun t _ ht => (hnone t (hdrop t ht)).1),
      filterMap_eq_filterMap_filter (mkBullishOB df uef) _ sl
        (fun t _ ht => (hnone t (hdrop t ht)).2)]
  unfold find_order_blocks
  rw [hcand]

/-- Witness for C10 on mixed swing lists over `dfTrend` (20 candles): the
edge points at index 3 and at the last index 19 contribute nothing, and
dropping them from lists that also contain interior swing points leaves
the output of `find_order_blocks` unchanged. -/
theorem edge_swing_points_skipped_witness :
    mkBearishOB dfTrend true ⟨3, 103⟩ = none ∧
    mkBullishOB dfTrend true ⟨19, 119⟩ = none ∧
    find_order_blocks dfTrend [⟨3, 103⟩, ⟨10, 110⟩] [⟨19, 119⟩, ⟨12, 112⟩] 10 true true =
      find_order_blocks dfTrend [⟨10, 110⟩] [⟨12, 112⟩] 10 true true := by
  have h3 := edge_swing_points_skipped dfTrend [⟨3, 103⟩, ⟨10, 110⟩] [⟨19, 119⟩, ⟨12, 112⟩]
    10 true true ⟨3, 103⟩
  have h19 := edge_swing_points_skipped dfTrend [⟨3, 103⟩, ⟨10, 110⟩] [⟨19, 119⟩, ⟨12, 112⟩]
    10 true true ⟨19, 119⟩
  refine ⟨(h3.1 (Or.inl (by decide))).1,
    (h19.1 (Or.inr (by with_unfolding_all decide))).2, ?_⟩
  have hfh : ([⟨3, 103⟩, ⟨10, 110⟩] : List Swing).filter
      (fun t => decide (5 < t.index ∧ t.index ≠ dfTrend.length - 1)) = [⟨10, 110⟩] := by
    with_unfolding_all decide
  have hfl : ([⟨19, 119⟩, ⟨12, 112⟩] : List Swing).filter
      (fun t => decide (5 < t.index ∧ t.index ≠ dfTrend.length - 1)) = [⟨12, 112⟩] := by
    with_unfolding_all decide
  rw [h3.2, hfh, hfl]

theorem foldl_min_le_init (l : List ℚ) : ∀ a : ℚ, l.foldl min a ≤ a := by
  induction l with
  | nil => intro a; exact le_refl a
  | cons y ys ih =>
    intro a
    exact le_trans (ih (min a y)) (min_le_left a y)

theorem qmin_cons_le (x : ℚ) (xs : List ℚ) : qmin (x :: xs) ≤ x :=
  foldl_min_le_init xs x

theorem lowAt_strict_chain (df : List Candle)
    (hinc : ∀ i, i + 1 < df.length → lowAt df i < lowAt df (i + 1)) :
    ∀ b a, a < b → b < df.length → lowAt df a < lowAt df b := by
  intro b
  induction b with
  | zero => intro a ha _; omega
  | succ b ih =>
    intro a ha hb
    rcases Nat.lt_succ_iff_lt_or_eq.1 ha with h | h
    · exact lt_trans (ih a h (by omega)) (hinc b hb)
    · subst h
      exact hinc a hb

/-- With strictly increasing lows, the fractal detector finds no swing
lows: the left end of every window is strictly lower. -/
theorem increasing_lows_no_swing_lows (df : List Candle)
    (hinc : ∀ i, i + 1 < df.length → lowAt df i < lowAt df (i + 1)) :
    (find_swing_points df 5).2 = [] := by
  unfold find_swing_points
  apply List.filterMap_eq_nil_iff.2
  intro i hi
  rw [if_neg]
  intro heq
  rcases List.mem_range'.1 hi with ⟨t, ht, hit⟩
  have hwin : ((List.range' (i - 5) (2 * 5 + 1)).map (lowAt df)) =
      lowAt df (i - 5) :: ((List.range' (i - 5 + 1) 10).map (lowAt df)) := rfl
  have h1 : qmin ((List.range' (i - 5) (2 * 5 + 1)).map (lowAt df)) ≤ lowAt df (i - 5) := by
    rw [hwin]
    exact qmin_cons_le _ _
  have h2 : lowAt df (i - 5) < lowAt df i :=
    lowAt_strict_chain df hinc i (i - 5) (by omega) (by omega)
  rw [heq] at h2
  exact absurd (lt_of_le_of_lt h1 h2) (lt_irrefl _)

/-- C2 (amended): for every candle series whose low prices are strictly
increasing (in particular, any degenerate series where every price column
equals the strictly increasing closes), `find_swing_points` yields no
swing lows, so `detect_trend` on its output returns direction `neutral` —
not `bullish`. -/
theorem increasing_lows_trend_neutral :
    ∀ df : List Candle, (∀ i, i + 1 < df.length → lowAt df i < lowAt df (i + 1)) →
      (detect_trend (find_swing_points df 5).1 (find_swing_points df 5).2).direction =
        "neutral" := by
  intro df hinc
  rw [increasing_lows_no_swing_lows df hinc]
  unfold detect_trend
  rw [if_pos (Or.inr (by simp : ([] : List Swing).length < 2))]

/-- Witness for the amended C2 at the concrete strictly increasing series
`dfTrend`. -/
theorem increasing_lows_trend_neutral_witness :
    (detect_trend (find_swing_points dfTrend 5).1 (find_swing_points dfTrend 5).2).direction =
      "neutral" := by
  apply increasing_lows_trend_neutral
  intro i hi
  have hlen : dfTrend.length = 20 := by with_unfolding_all decide
  have H : ∀ i, i < 19 → lowAt dfTrend i < lowAt dfTrend (i + 1) := by
    with_unfolding_all decide
  exact H i (by omega)

/-- Counterexample to C2 as stated: `dfTrend` has 20 candles and strictly
increasing closes, yet `detect_trend` over the swing points of
`find_swing_points` does not return `bullish` (the monotone series has no
fractal swing points at all, so the early neutral return fires). -/
theorem increasing_closes_not_bullish :
    dfTrend.length = 20 ∧
    (∀ i, i < 19 → closeAt dfTrend i < closeAt dfTrend (i + 1)) ∧
    (detect_trend (find_swing_points dfTrend 5).1 (find_swing_points dfTrend 5).2).direction ≠
      "bullish" := by
  with_unfolding_all decide

/-- Counterexample to C5 as stated: on the fixture `dfBreak` (swing low 100
at index 10, higher swing low 105 at index 20, final close 99 below 100),
no BOS returned by `detect_structure_breaks` has level 100: the bearish
BOS is taken against the most recent swing low 105, not the earlier 100. -/
theorem structure_break_bos_level_not_100 :
    slBreak = [⟨10, 100⟩, ⟨20, 105⟩] ∧ closeAt dfBreak 26 < 100 ∧
    (∀ b ∈ (detect_structure_breaks dfBreak shBreak slBreak).bos, b.level ≠ 100) := by
  with_unfolding_all decide

/-- C5 (amended): on the fixture, `detect_structure_breaks` returns a
bearish CHoCH at level 105 and a bearish BOS at level 105 (the most
recent, higher swing low), packaged in one result record — a BOS list plus
an optional CHoCH — with no emission ordering between them. -/
theorem structure_break_fixture_result :
    detect_structure_breaks dfBreak shBreak slBreak =
      ⟨[⟨"bearish", 105, 99, "SELL"⟩], some ⟨"bearish", 105, "SELL"⟩⟩ := by
  with_unfolding_all decide

/-- C6 (amended): the backward candidate scan of `find_order_blocks`
returns `j` exactly when `j` lies in the half-open interval
`(max 0 (idx-10), idx-1]` — for `idx ≥ 10` these are the NINE indices
`idx-9 .. idx-1`; the Python stop bound `max(0, idx-10)` is exclusive, so
`idx-10` (and index 0) are never examined — `j` is a candidate (close
above open for the bearish scan, below for the bullish scan, and wick at
most twice the body), and no nearer index is a candidate. -/
theorem ob_scan_range_characterisation :
    ∀ (df : List Candle) (idx j : ℕ),
      (obScanBear df idx = some j ↔
        (max 0 (idx - 10) < j ∧ j ≤ idx - 1 ∧ obCandPredBear df j = true ∧
          ∀ k, j < k → k ≤ idx - 1 → obCandPredBear df k = false)) ∧
      (obScanBull df idx = some j ↔
        (max 0 (idx - 10) < j ∧ j ≤ idx - 1 ∧ obCandPredBull df j = true ∧
          ∀ k, j < k → k ≤ idx - 1 → obCandPredBull df k = false)) := by
  intro df idx j
  constructor
  · exact scanDown_eq_some (obCandPredBear df) (max 0 (idx - 10)) (idx - 1) j
  · exact scanDown_eq_some (obCandPredBull df) (max 0 (idx - 10)) (idx - 1) j

/-- Counterexample to C6 as stated: on `dfScan` the only swing high is at
index 15, candle 5 = 15 - 10 is a qualifying bullish candle, every candle
at indices 6..14 is bearish — so a scan reaching `idx-10` would select
candle 5 — yet the scan finds nothing and `find_order_blocks` returns no
block: only the nine indices 14..6 are examined. -/
theorem tenth_candle_not_examined :
    (find_swing_points dfScan 5).1 = [⟨15, 250⟩] ∧
    obCandPredBear dfScan 5 = true ∧
    (∀ j, j < 15 → 5 < j → ¬(openAt dfScan j < closeAt dfScan j)) ∧
    obScanBear dfScan 15 = none ∧
    find_order_blocks dfScan (find_swing_points dfScan 5).1 (find_swing_points dfScan 5).2
      10 true true = [] := by
  with_unfolding_all decide

theorem mem_bullGapAt (df : List Candle) (minp price : ℚ) (i : ℕ) (g : FVG)
    (hg : g ∈ bullGapAt df minp price i) :
    g.idx = i ∧ g.type = "bullish" ∧ highAt df (i - 2) < lowAt df i ∧
      minp ≤ gapPctBull df i ∧ filledBull df i = false := by
  unfold bullGapAt at hg
  split at hg
  · split at hg
    · split at hg
      · exact absurd hg (by simp)
      · rename_i h1 h2 h3
        rw [List.mem_singleton.1 hg]
        refine ⟨rfl, rfl, h1, h2, ?_⟩
        cases hfb : filledBull df i
        · rfl
        · exact absurd hfb h3
    · exact absurd hg (by simp)
  · exact absurd hg (by simp)

theorem mem_bearGapAt (df : List Candle) (minp price : ℚ) (i : ℕ) (g : FVG)
    (hg : g ∈ bearGapAt df minp price i) :
    g.idx = i ∧ g.type = "bearish" ∧ highAt df i < lowAt df (i - 2) ∧
      minp ≤ gapPctBear df i ∧ filledBear df i = false := by
  unfold bearGapAt at hg
  split at hg
  · split at hg
    · split at hg
      · exact absurd hg (by simp)
      · rename_i h1 h2 h3
        rw [List.mem_singleton.1 hg]
        refine ⟨rfl, rfl, h1, h2, ?_⟩
        cases hfb : filledBear df i
        · rfl
        · exact absurd hfb h3
    · exact absurd hg (by simp)
  · exact absurd hg (by simp)

theorem filledBull_eq_false_iff (df : List Candle) (i : ℕ) :
    filledBull df i = false ↔ ∀ j, j < df.length → i < j → highAt df (i - 2) < lowAt df j := by
  unfold filledBull
  rw [List.any_eq_false]
  constructor
  · intro h j hj1 hj2
    have := h j (by rw [List.mem_range']; exact ⟨j - (i + 1), by omega, by omega⟩)
    simpa using this
  · intro h k hk
    rcases List.mem_range'.1 hk with ⟨t, ht, rfl⟩
    simp only [decide_eq_true_eq]
    exact not_le.2 (h (i + 1 + 1 * t) (by omega) (by omega))

theorem filledBear_eq_false_iff (df : List Candle) (i : ℕ) :
    filledBear df i = false ↔ ∀ j, j < df.length → i < j → highAt df j < lowAt df (i - 2) := by
  unfold filledBear
  rw [List.any_eq_false]
  constructor
  · intro h j hj1 hj2
    have := h j (by rw [List.mem_range']; exact ⟨j - (i + 1), by omega, by omega⟩)
    simpa using this
  · intro h k hk
    rcases List.mem_range'.1 hk with ⟨t, ht, rfl⟩
    simp only [decide_eq_true_eq]
    exact not_le.2 (h (i + 1 + 1 * t) (by omega) (by omega))

theorem bullGapAt_exists (df : List Candle) (minp price : ℚ) (i : ℕ)
    (h1 : highAt df (i - 2) < lowAt df i) (h2 : minp ≤ gapPctBull df i)
    (h3 : filledBull df i = false) :
    ∃ g ∈ bullGapAt df minp price i, g.idx = i ∧ g.type = "bullish" := by
  unfold bullGapAt
  rw [if_pos h1, if_pos h2, h3]
  simp

theorem bearGapAt_exists (df : List Candle) (minp price : ℚ) (i : ℕ)
    (h1 : highAt df i < lowAt df (i - 2)) (h2 : minp ≤ gapPctBear df i)
    (h3 : filledBear df i = false) :
    ∃ g ∈ bearGapAt df minp price i, g.idx = i ∧ g.type = "bearish" := by
  unfold bearGapAt
  rw [if_pos h1, if_pos h2, h3]
  simp

/-- C3 (amended): a gap detected at the triple `(i-2, i-1, i)` that meets
the size threshold appears among the accumulated gaps of
`find_fair_value_gaps` exactly when no later candle's LOW reaches down to
the gap's far boundary `high[i-2]` (for a bullish gap; symmetrically, no
later candle's HIGH reaches up to `low[i-2]` for a bearish gap).  The
test is on the later candle's low/high against the far boundary, not on
its close lying inside the gap; the final output additionally sorts by
distance and truncates to the nearest 10. -/
theorem fvg_exclusion_characterisation :
    ∀ (df : List Candle) (minp : ℚ) (i : ℕ), 2 ≤ i → i + 1 < df.length →
      ((∃ g ∈ fvgCandidates df minp, g.idx = i ∧ g.type = "bullish") ↔
        (highAt df (i - 2) < lowAt df i ∧ minp ≤ gapPctBull df i ∧
          ∀ j, j < df.length → i < j → highAt df (i - 2) < lowAt df j)) ∧
      ((∃ g ∈ fvgCandidates df minp, g.idx = i ∧ g.type = "bearish") ↔
        (highAt df i < lowAt df (i - 2) ∧ minp ≤ gapPctBear df i ∧
          ∀ j, j < df.length → i < j → highAt df j < lowAt df (i - 2))) := by
  intro df minp i h2 hn
  have hmemi : i ∈ List.range' 2 (df.length - 3) := by
    rw [List.mem_range']
    exact ⟨i - 2, by omega, by omega⟩
  constructor
  · constructor
    · rintro ⟨g, hg, hidx, hty⟩
      rcases List.mem_flatMap.1 hg with ⟨i', _, hgi⟩
      rcases List.mem_append.1 hgi with h | h
      · obtain ⟨hidx', _, hc1, hc2, hc3⟩ := mem_bullGapAt df minp (priceOf df) i' g h
        have : i' = i := by rw [← hidx, hidx']
        subst this
        exact ⟨hc1, hc2, (filledBull_eq_false_iff df i').1 hc3⟩
      · obtain ⟨_, hty', _⟩ := mem_bearGapAt df minp (priceOf df) i' g h
        rw [hty'] at hty
        exact absurd hty (by decide)
    · rintro ⟨hc1, hc2, hc3⟩
      have hfb : filledBull df i = false := (filledBull_eq_false_iff df i).2 hc3
      obtain ⟨g, hgmem, hp⟩ := bullGapAt_exists df minp (priceOf df) i hc1 hc2 hfb
      exact ⟨g, List.mem_flatMap.2 ⟨i, hmemi, List.mem_append.2 (Or.inl hgmem)⟩, hp⟩
  · constructor
    · rintro ⟨g, hg, hidx, hty⟩
      rcases List.mem_flatMap.1 hg with ⟨i', _, hgi⟩
      rcases List.mem_append.1 hgi with h | h
      · obtain ⟨_, hty', _⟩ := mem_bullGapAt df minp (priceOf df) i' g h
        rw [hty'] at hty
        exact absurd hty (by decide)
      · obtain ⟨hidx', _, hc1, hc2, hc3⟩ := mem_bearGapAt df minp (priceOf df) i' g h
        have : i' = i := by rw [← hidx, hidx']
        subst this
        exact ⟨hc1, hc2, (filledBear_eq_false_iff df i').1 hc3⟩
    · rintro ⟨hc1, hc2, hc3⟩
      have hfb : filledBear df i = false := (filledBear_eq_false_iff df i).2 hc3
      obtain ⟨g, hgmem, hp⟩ := bearGapAt_exists df minp (priceOf df) i hc1 hc2 hfb
      exact ⟨g, List.mem_flatMap.2 ⟨i, hmemi, List.mem_append.2 (Or.inr hgmem)⟩, hp⟩

/-- Witness for the amended C3 at `dfGap`: the gap at triple (0, 1, 2) is
unfilled, hence present among the accumulated gaps. -/
theorem fvg_exclusion_characterisation_witness :
    ∃ g ∈ fvgCandidates dfGap (1/10), g.idx = 2 ∧ g.type = "bullish" := by
  apply ((fvg_exclusion_characterisation dfGap (1/10) 2 (by decide)
    (by with_unfolding_all decide)).1).2
  refine ⟨?_, ?_, ?_⟩
  · with_unfolding_all decide
  · with_unfolding_all decide
  · have H : ∀ j, j < 10 → 2 < j → highAt dfGap 0 < lowAt dfGap j := by
      with_unfolding_all decide
    intro j hj1 hj2
    have hlen : dfGap.length = 10 := by with_unfolding_all decide
    exact H j (by omega) hj2

/-- Counterexample to C3 as stated: on `dfGap`, candle 5's close (1035)
lies inside the bullish gap interval [1000, 1050] of the gap at triple
(0, 1, 2), so by the claim the gap should be excluded; but the gap is
still in the output of `find_fair_value_gaps`, because the code's fill
test uses the later candle's low against the far boundary
(`lows[j] <= highs[i-2]`), and candle 5's low (1030) stays above 1000. -/
theorem fvg_close_inside_not_excluded :
    highAt dfGap 0 ≤ closeAt dfGap 5 ∧ closeAt dfGap 5 ≤ lowAt dfGap 2 ∧
    2 < 5 ∧ 5 < dfGap.length ∧
    (∃ g ∈ find_fair_value_gaps dfGap (1/10), g.idx = 2 ∧ g.type = "bullish") := by
  with_unfolding_all decide

/-- C4: the `valid` flag of `calculate_trade_setup` is true exactly when
the (unrounded) risk percentage `abs(entry - stop_loss) / entry * 100` is
at most 5.0 — in particular it is false whenever risk% > 5.0, and true at
exactly 5.0. -/
theorem trade_setup_valid_iff :
    ∀ (df : List Candle) (ob : TSInput) (zonesEq atrOpt : Option ℚ),
      ((calculate_trade_setup df ob zonesEq atrOpt).valid = true ↔
        riskPctOf ob atrOpt (priceOf df) ≤ 5) := by
  intro df ob zonesEq atrOpt
  unfold calculate_trade_setup riskPctOf mkTradeSetup
  by_cases hty : ob.type = "bullish"
  · rw [if_pos hty, if_pos hty]
    cases zonesEq with
    | none => simp
    | some eq => simp
  · rw [if_neg hty, if_neg hty]
    cases zonesEq with
    | none => simp
    | some eq => simp

/-- C7: the numeric edge-case guards of the indicator code.  RSI returns
50 for series shorter than `period + 1` prices and 100 when the average
loss is zero, and otherwise follows the plain formula
`100 - 100 / (1 + avg_gain / avg_loss)`; the volume ratios of
`calc_indicators` and `find_order_blocks` are 1.0 when the 20-period
average volume is zero, and the plain quotient otherwise.  (All the
embedded functions are total, so no branch can raise.) -/
theorem numeric_edge_guards :
    ∀ (prices : List ℚ) (period : ℕ) (df : List Candle) (j : ℕ),
      (prices.length < period + 1 → calc_rsi prices period = 50) ∧
      (period + 1 ≤ prices.length → rsiAvgLoss prices period = 0 →
        calc_rsi prices period = 100) ∧
      (period + 1 ≤ prices.length → rsiAvgLoss prices period ≠ 0 →
        calc_rsi prices period =
          100 - 100 / (1 + rsiAvgGain prices period / rsiAvgLoss prices period)) ∧
      (avgVolume df = 0 → calcVolRatio df = 1) ∧
      (0 < avgVolume df →
        calcVolRatio df = volumeAt df (df.length - 1) / avgVolume df) ∧
      (avgVolume df = 0 → obVolRatio df j = 1) := by
  intro prices period df j
  refine ⟨?_, ?_, ?_, ?_, ?_, ?_⟩
  · intro h
    unfold calc_rsi
    rw [if_pos h]
  · intro h1 h2
    unfold calc_rsi
    rw [if_neg (by omega), if_pos h2]
  · intro h1 h2
    unfold calc_rsi
    rw [if_neg (by omega), if_neg h2]
  · intro h
    unfold calcVolRatio
    rw [h]
    simp
  · intro h
    unfold calcVolRatio
    rw [if_pos h]
  · intro h
    unfold obVolRatio
    rw [h]
    simp

/-- Witness for C7 at concrete inputs: a 2-price series falls back to RSI
50; a strictly rising 15-price series gives RSI 100; a mixed 15-price
series follows the plain formula; the zero-volume fixture gives both
volume-ratio fallbacks 1. -/
theorem numeric_edge_guards_witness :
    calc_rsi [1, 2] 14 = 50 ∧
    calc_rsi pricesUp 14 = 100 ∧
    calc_rsi pricesMixed 14 =
      100 - 100 / (1 + rsiAvgGain pricesMixed 14 / rsiAvgLoss pricesMixed 14) ∧
    calcVolRatio dfZeroVol = 1 ∧ obVolRatio dfZeroVol 0 = 1 := by
  refine ⟨?_, ?_, ?_, ?_, ?_⟩
  · exact (numeric_edge_guards [1, 2] 14 dfZeroVol 0).1 (by decide)
  · exact (numeric_edge_guards pricesUp 14 dfZeroVol 0).2.1 (by decide)
      (by with_unfolding_all decide)
  · exact (numeric_edge_guards pricesMixed 14 dfZeroVol 0).2.2.1 (by decide)
      (by with_unfolding_all decide)
  · exact (numeric_edge_guards pricesUp 14 dfZeroVol 0).2.2.2.1
      (by with_unfolding_all decide)
  · exact (numeric_edge_guards pricesUp 14 dfZeroVol 0).2.2.2.2.2
      (by with_unfolding_all decide)

/-- C8: `find_fair_value_gaps` is a pure function of the candle series in
this embedding — the source reads only `self.df` and mutates no state —
so repeated calls on the same series return the same list, in the same
order. -/
theorem fvg_deterministic :
    ∀ (df : List Candle) (min_gap_pct : ℚ),
      find_fair_value_gaps df min_gap_pct = find_fair_value_gaps df min_gap_pct :=
  fun _ _ => rfl

/-- Witness for C4 at the risk-percentage boundary: entry 100, stop 95,
zero ATR gives risk% exactly 5.0 and a valid setup. -/
theorem trade_setup_valid_iff_witness :
    (calculate_trade_setup dfZeroVol ⟨"bullish", 100, 95⟩ none (some 0)).valid = true := by
  exact (trade_setup_valid_iff dfZeroVol ⟨"bullish", 100, 95⟩ none (some 0)).2
    (by with_unfolding_all decide)

/-- Witness for the amended C6 at `dfTouch`: the bullish scan from the
swing low at index 12 selects the nearest bearish candle, index 11. -/
theorem ob_scan_range_characterisation_witness :
    obScanBull dfTouch 12 = some 11 := by
  apply ((ob_scan_range_characterisation dfTouch 12 11).2).2
  refine ⟨by decide, by decide, by with_unfolding_all decide, ?_⟩
  intro k h1 h2
  exact absurd h1 (by omega)
